import Mathlib

/-!
Shallow embedding of the employee management system
(src/models.py, src/data_access_layer.py, src/controller.py).

Strings are Lean `String`; Python `str.strip()` is modelled by `pyStrip`
(ASCII whitespace), `str.lower()` by `pyLower` (ASCII case folding) and
`a in b` by `pyStrIn`.  The SQLite table is modelled as a list of rows
(`Store`); `SELECT ... ORDER BY id` is an insertion sort on the `id`
column.  A possible `sqlite3.Error` raised by the storage layer is
modelled by an explicit `fault : Option String` argument threaded through
the controller operations: when it is `some e`, every storage call raises
an exception whose text is `e`, which the controller's `try/except`
converts into a failure envelope.
-/

/-! ### Python string primitives -/

/-- `str.lower()` on a single ASCII character. -/
def pyLowerChar (c : Char) : Char :=
  if 'A' ≤ c ∧ c ≤ 'Z' then Char.ofNat (c.toNat + 32) else c

/-- Python `s.lower()` (ASCII model). -/
def pyLower (s : String) : String :=
  ⟨s.data.map pyLowerChar⟩

/-- Substring test on character lists: does `needle` occur in `hay`? -/
def pySubList : List Char → List Char → Bool
  | needle, [] => needle == []
  | needle, c :: t => needle.isPrefixOf (c :: t) || pySubList needle t

/-- Python `needle in hay` on strings (substring containment). -/
def pyStrIn (needle hay : String) : Bool :=
  pySubList needle.data hay.data

/-- Strip leading and trailing whitespace from a character list. -/
def pyStripChars (l : List Char) : List Char :=
  ((l.dropWhile Char.isWhitespace).reverse.dropWhile Char.isWhitespace).reverse

/-- Python `s.strip()`. -/
def pyStrip (s : String) : String :=
  ⟨pyStripChars s.data⟩

/-! ### Domain model (src/models.py) -/

/-- `Employee` dataclass of src/models.py (after `__post_init__`). -/
structure Employee where
  id : Option Int := none
  fname : String := ""
  lname : String := ""
  department : String := ""
  ph_number : String := ""
deriving Repr, DecidableEq

/-- `Employee._clean_string`: `None` becomes `""`, anything else is stripped. -/
def cleanString (value : Option String) : String :=
  match value with
  | none => ""
  | some s => pyStrip s

/-- Constructing an `Employee` runs `__post_init__`, which cleans all four
string fields. -/
def Employee.make (id : Option Int)
    (fname lname department ph_number : Option String) : Employee :=
  { id := id
    fname := cleanString fname
    lname := cleanString lname
    department := cleanString department
    ph_number := cleanString ph_number }

/-- `Employee.is_valid`: all four string fields non-empty. -/
def Employee.is_valid (e : Employee) : Bool :=
  !(e.fname == "") && !(e.lname == "") && !(e.department == "") && !(e.ph_number == "")

/-- `Employee.get_validation_errors`: one message per missing field, in a
fixed order. -/
def Employee.get_validation_errors (e : Employee) : List String :=
  (if e.fname == "" then ["First name is required"] else []) ++
  (if e.lname == "" then ["Last name is required"] else []) ++
  (if e.department == "" then ["Department is required"] else []) ++
  (if e.ph_number == "" then ["Phone number is required"] else [])

/-- `EmployeeSearchCriteria` of src/models.py (fields already stripped by
`__init__`, see `EmployeeSearchCriteria.make`). -/
structure EmployeeSearchCriteria where
  search_term : String
  department : String
deriving Repr, DecidableEq

/-- `EmployeeSearchCriteria.__init__` strips both arguments. -/
def EmployeeSearchCriteria.make (search_term department : String) :
    EmployeeSearchCriteria :=
  ⟨pyStrip search_term, pyStrip department⟩

def EmployeeSearchCriteria.has_search_term (c : EmployeeSearchCriteria) : Bool :=
  !(c.search_term == "")

def EmployeeSearchCriteria.has_department_filter (c : EmployeeSearchCriteria) : Bool :=
  !(c.department == "")

def EmployeeSearchCriteria.is_empty (c : EmployeeSearchCriteria) : Bool :=
  !c.has_search_term && !c.has_department_filter

/-- `EmployeeUpdateData` of src/models.py. -/
structure EmployeeUpdateData where
  fname : Option String
  lname : Option String
  department : Option String
  ph_number : Option String
deriving Repr, DecidableEq

/-- The per-field normalization of `EmployeeUpdateData.__init__`:
`x.strip() if x else None`, i.e. `None` and `""` (both falsy) give `None`,
any other string is stripped. -/
def pyOptStrip (v : Option String) : Option String :=
  match v with
  | none => none
  | some s => if s == "" then none else some (pyStrip s)

/-- `EmployeeUpdateData.__init__`. -/
def EmployeeUpdateData.make (fname lname department ph_number : Option String) :
    EmployeeUpdateData :=
  ⟨pyOptStrip fname, pyOptStrip lname, pyOptStrip department, pyOptStrip ph_number⟩

/-- `EmployeeUpdateData.has_updates`. -/
def EmployeeUpdateData.has_updates (u : EmployeeUpdateData) : Bool :=
  u.fname.isSome || u.lname.isSome || u.department.isSome || u.ph_number.isSome

/-! ### Storage rows -/

/-- A row of the `employee` table.  The schema declares all text columns
nullable; the seed data and the DAL never store null names or phones, but
`department` must be modelled as nullable because
`EmployeeDAL.get_departments` filters on `department IS NOT NULL`. -/
structure DBRow where
  id : Int
  fname : String
  lname : String
  department : Option String
  phNumber : String
deriving Repr, DecidableEq

/-- The `employee` table, in rowid (insertion) order. -/
abbrev Store := List DBRow

/-- `Employee.from_dict` applied to a fetched row: the constructor then
cleans every field (a null department becomes `""`). -/
def Employee.from_row (r : DBRow) : Employee :=
  Employee.make (some r.id) (some r.fname) (some r.lname) r.department (some r.phNumber)

/-- Comparison used by `ORDER BY id`. -/
def rowLe (a b : DBRow) : Prop := a.id ≤ b.id

instance : DecidableRel rowLe :=
  fun a b => (inferInstance : Decidable (a.id ≤ b.id))

instance : IsTotal DBRow rowLe := ⟨fun a b => Int.le_total a.id b.id⟩

instance : IsTrans DBRow rowLe := ⟨fun _ _ _ h h2 => le_trans h h2⟩

/-! ### Data access layer (src/data_access_layer.py) -/

namespace EmployeeDAL

/-- `SELECT * FROM employee ORDER BY id`. -/
def get_all_employees (st : Store) : List DBRow :=
  List.insertionSort rowLe st

/-- `SELECT * FROM employee WHERE id = ?` with `fetchone`. -/
def get_employee_by_id (st : Store) (employee_id : Int) : Option DBRow :=
  st.find? (fun r => r.id == employee_id)

/-- SQLite `lastrowid` for an `INTEGER PRIMARY KEY` table: one more than
the largest existing rowid. -/
def nextId (st : Store) : Int :=
  (st.foldl (fun m r => max m r.id) 0) + 1

/-- `INSERT INTO employee (fname, lname, department, phNumber) VALUES (?,?,?,?)`;
returns `lastrowid`.  The values are inserted exactly as passed. -/
def create_employee (st : Store) (fname lname department ph_number : String) :
    Int × Store :=
  let nid := nextId st
  (nid, st ++ [⟨nid, fname, lname, some department, ph_number⟩])

/-- Dynamic `UPDATE employee SET ... WHERE id = ?`: only the supplied
fields are written; returns `rowcount > 0` (and `False` with no fields). -/
def update_employee (st : Store) (employee_id : Int)
    (fname lname department ph_number : Option String) : Bool × Store :=
  if fname.isNone && lname.isNone && department.isNone && ph_number.isNone then
    (false, st)
  else
    (st.any (fun r => r.id == employee_id),
     st.map (fun r =>
       if r.id == employee_id then
         { r with
           fname := fname.getD r.fname
           lname := lname.getD r.lname
           department := match department with
                         | some d => some d
                         | none => r.department
           phNumber := ph_number.getD r.phNumber }
       else r))

/-- `DELETE FROM employee WHERE id = ?`; returns `rowcount > 0`. -/
def delete_employee (st : Store) (employee_id : Int) : Bool × Store :=
  (st.any (fun r => r.id == employee_id),
   st.filter (fun r => !(r.id == employee_id)))

/-- `SELECT * FROM employee WHERE fname LIKE ? OR lname LIKE ? ORDER BY id`
with pattern `%term%`; SQLite `LIKE` is case-insensitive on ASCII. -/
def search_employees (st : Store) (search_term : String) : List DBRow :=
  (get_all_employees st).filter (fun r =>
    pyStrIn (pyLower search_term) (pyLower r.fname) ||
    pyStrIn (pyLower search_term) (pyLower r.lname))

/-- `SELECT * FROM employee WHERE department = ? ORDER BY id`. -/
def get_employees_by_department (st : Store) (department : String) : List DBRow :=
  (get_all_employees st).filter (fun r => r.department == some department)

/-- `SELECT COUNT(*) FROM employee`. -/
def get_employee_count (st : Store) : Nat :=
  st.length

/-- `SELECT DISTINCT department FROM employee WHERE department IS NOT NULL
ORDER BY department`.  Note: only SQL `NULL` is excluded; the empty string
is an ordinary value and is kept. -/
def get_departments (st : Store) : List String :=
  List.insertionSort (fun a b : String => a ≤ b) (st.filterMap DBRow.department).dedup

end EmployeeDAL

/-! ### Outcome envelope -/

/-- The statistics payload built by `get_employee_statistics`. -/
structure Statistics where
  total_employees : Nat
  total_departments : Nat
  departments : List String
  employees_per_department : List (String × Nat)
deriving Repr, DecidableEq

/-- The result dictionary returned by every controller method.  An `Option`
field is `none` exactly when the corresponding key is absent from the
Python dict. -/
structure Envelope where
  success : Bool
  message : Option String := none
  errors : Option (List String) := none
  employee_id : Option Int := none
  employee : Option Employee := none
  employees : Option (List Employee) := none
  departments : Option (List String) := none
  statistics : Option Statistics := none
deriving Repr, DecidableEq

/-- The operation-specific payload keys are all absent. -/
def Envelope.payloadAbsent (env : Envelope) : Prop :=
  env.employee_id = none ∧ env.employee = none ∧ env.employees = none ∧
  env.departments = none ∧ env.statistics = none

/-- Shape guaranteed by most controller methods: a message string is always
present, and no payload field survives a failure. -/
def Envelope.wellFormed (env : Envelope) : Prop :=
  env.message.isSome = true ∧ (env.success = false → env.payloadAbsent)

/-- Shape of the `get_employee_statistics` envelope: its success envelope
omits `message` and carries only the statistics payload, while its failure
envelope has a message and no payload. -/
def Envelope.statisticsShape (env : Envelope) : Prop :=
  (env.success = true → env.message = none ∧ env.statistics.isSome = true) ∧
  (env.success = false → env.message.isSome = true ∧ env.payloadAbsent)

/-! ### Controller (src/controller.py) -/

namespace EmployeeController

/-- `EmployeeController.create_employee`.  Validation happens before any
storage call, so an invalid input is reported even when the storage layer
would fault. -/
def create_employee (fault : Option String) (st : Store)
    (fname lname department ph_number : String) : Envelope × Store :=
  let employee := Employee.make none (some fname) (some lname) (some department) (some ph_number)
  if !employee.is_valid then
    ({ success := false
       message := some "Validation failed"
       errors := some employee.get_validation_errors }, st)
  else
    match fault with
    | some e =>
        ({ success := false, message := some ("Failed to create employee: " ++ e) }, st)
    | none =>
        match (EmployeeDAL.get_all_employees st).find?
            (fun emp => emp.phNumber == ph_number) with
        | some _ =>
            ({ success := false
               message := some ("Employee with phone number " ++ ph_number ++ " already exists") }, st)
        | none =>
            let res := EmployeeDAL.create_employee st fname lname department ph_number
            ({ success := true
               message := some ("Employee created successfully with ID: " ++ toString res.1)
               employee_id := some res.1 }, res.2)

/-- `EmployeeController.get_employee`. -/
def get_employee (fault : Option String) (st : Store) (employee_id : Int) : Envelope :=
  match fault with
  | some e => { success := false, message := some ("Failed to retrieve employee: " ++ e) }
  | none =>
      match EmployeeDAL.get_employee_by_id st employee_id with
      | none =>
          { success := false
            message := some ("Employee with ID " ++ toString employee_id ++ " not found") }
      | some row =>
          { success := true
            message := some "Employee retrieved successfully"
            employee := some (Employee.from_row row) }

/-- `EmployeeController.get_all_employees`. -/
def get_all_employees (fault : Option String) (st : Store) : Envelope :=
  match fault with
  | some e => { success := false, message := some ("Failed to retrieve employees: " ++ e) }
  | none =>
      let employees := (EmployeeDAL.get_all_employees st).map Employee.from_row
      { success := true
        message := some ("Retrieved " ++ toString employees.length ++ " employees")
        employees := some employees }

/-- `EmployeeController.search_employees`.  With empty criteria the nested
`get_all_employees` call catches any storage fault itself, so this branch
always reports success. -/
def search_employees (fault : Option String) (st : Store)
    (c : EmployeeSearchCriteria) : Envelope :=
  if c.is_empty then
    let res := get_all_employees fault st
    let employees := if res.success then res.employees.getD [] else []
    { success := true
      message := some ("Found " ++ toString employees.length ++ " matching employees")
      employees := some employees }
  else
    match fault with
    | some e => { success := false, message := some ("Failed to search employees: " ++ e) }
    | none =>
        let employees :=
          if c.has_search_term && c.has_department_filter then
            ((EmployeeDAL.get_all_employees st).filter (fun r =>
              (pyStrIn (pyLower c.search_term) (pyLower r.fname) ||
               pyStrIn (pyLower c.search_term) (pyLower r.lname)) &&
              r.department == some c.department)).map Employee.from_row
          else if c.has_search_term then
            (EmployeeDAL.search_employees st c.search_term).map Employee.from_row
          else
            (EmployeeDAL.get_employees_by_department st c.department).map Employee.from_row
        { success := true
          message := some ("Found " ++ toString employees.length ++ " matching employees")
          employees := some employees }

/-- The tail of `EmployeeController.update_employee` after all checks pass:
call the DAL and report the boolean result. -/
def perform_update (st : Store) (employee_id : Int) (u : EmployeeUpdateData) :
    Envelope × Store :=
  let res := EmployeeDAL.update_employee st employee_id u.fname u.lname u.department u.ph_number
  if res.1 then
    ({ success := true
       message := some ("Employee " ++ toString employee_id ++ " updated successfully") }, res.2)
  else
    ({ success := false
       message := some ("Failed to update employee " ++ toString employee_id) }, res.2)

/-- `EmployeeController.update_employee`. -/
def update_employee (fault : Option String) (st : Store) (employee_id : Int)
    (u : EmployeeUpdateData) : Envelope × Store :=
  match fault with
  | some e =>
      ({ success := false, message := some ("Failed to update employee: " ++ e) }, st)
  | none =>
      match EmployeeDAL.get_employee_by_id st employee_id with
      | none =>
          ({ success := false
             message := some ("Employee with ID " ++ toString employee_id ++ " not found") }, st)
      | some _ =>
          if !u.has_updates then
            ({ success := false, message := some "No fields provided for update" }, st)
          else
            match u.ph_number with
            | some p =>
                if (EmployeeDAL.get_all_employees st).any
                    (fun emp => emp.phNumber == p && !(emp.id == employee_id)) then
                  ({ success := false
                     message := some ("Phone number " ++ p ++ " is already in use by another employee") }, st)
                else
                  perform_update st employee_id u
            | none => perform_update st employee_id u

/-- `EmployeeController.delete_employee`. -/
def delete_employee (fault : Option String) (st : Store) (employee_id : Int) :
    Envelope × Store :=
  match fault with
  | some e =>
      ({ success := false, message := some ("Failed to delete employee: " ++ e) }, st)
  | none =>
      match EmployeeDAL.get_employee_by_id st employee_id with
      | none =>
          ({ success := false
             message := some ("Employee with ID " ++ toString employee_id ++ " not found") }, st)
      | some _ =>
          let res := EmployeeDAL.delete_employee st employee_id
          if res.1 then
            ({ success := true
               message := some ("Employee " ++ toString employee_id ++ " deleted successfully") }, res.2)
          else
            ({ success := false
               message := some ("Failed to delete employee " ++ toString employee_id) }, res.2)

/-- `EmployeeController.get_employee_statistics`.  Note: the success
envelope carries no `message` key. -/
def get_employee_statistics (fault : Option String) (st : Store) : Envelope :=
  match fault with
  | some e => { success := false, message := some ("Failed to get statistics: " ++ e) }
  | none =>
      let total_count := EmployeeDAL.get_employee_count st
      let departments := EmployeeDAL.get_departments st
      let department_counts := departments.map
        (fun dept => (dept, (EmployeeDAL.get_employees_by_department st dept).length))
      { success := true
        statistics := some
          { total_employees := total_count
            total_departments := departments.length
            departments := departments
            employees_per_department := department_counts } }

/-- `EmployeeController.get_departments`. -/
def get_departments (fault : Option String) (st : Store) : Envelope :=
  match fault with
  | some e => { success := false, message := some ("Failed to get departments: " ++ e) }
  | none =>
      let departments := EmployeeDAL.get_departments st
      { success := true
        message := some ("Retrieved " ++ toString departments.length ++ " departments")
        departments := some departments }

end EmployeeController

/-! ### Shared helper lemmas -/

/-- Membership in the `ORDER BY id` listing is membership in the table. -/
theorem mem_get_all_iff (st : Store) (r : DBRow) :
    r ∈ EmployeeDAL.get_all_employees st ↔ r ∈ st :=
  List.mem_insertionSort rowLe

/-- A row found by `get_employee_by_id` is in the table and has the looked-up id. -/
theorem get_employee_by_id_spec (st : Store) (i : Int) (r : DBRow)
    (h : EmployeeDAL.get_employee_by_id st i = some r) :
    r ∈ st ∧ r.id = i := by
  refine ⟨List.mem_of_find?_eq_some h, ?_⟩
  have := List.find?_some h
  simpa using this

/-! ### Claims -/

/-- C10: for every `Employee`, `is_valid` returns `true` exactly when
`get_validation_errors` returns the empty list. -/
theorem c10_is_valid_iff_no_errors (e : Employee) :
    e.is_valid = true ↔ e.get_validation_errors = [] := by
  unfold Employee.is_valid Employee.get_validation_errors
  by_cases h1 : e.fname = "" <;> by_cases h2 : e.lname = "" <;>
    by_cases h3 : e.department = "" <;> by_cases h4 : e.ph_number = "" <;>
    simp [h1, h2, h3, h4]

/-- C1 counterexample: updating an id that is absent from the store with a
no-field request fails with the not-found message, not with
"No fields provided for update". -/
theorem c1_counterexample :
    (EmployeeController.update_employee none [] 1
        (EmployeeUpdateData.make none none none none)).1.success = false ∧
    (EmployeeController.update_employee none [] 1
        (EmployeeUpdateData.make none none none none)).1.message
      = some "Employee with ID 1 not found" ∧
    (EmployeeController.update_employee none [] 1
        (EmployeeUpdateData.make none none none none)).1.message
      ≠ some "No fields provided for update" := by
  refine ⟨rfl, by decide, by decide⟩

/-- C1 (amended): when the id exists in the store, Update with a request
containing no fields fails with "No fields provided for update" and leaves
the store unchanged; when the id is absent, the not-found failure takes
precedence over the no-fields message. -/
theorem c1_no_fields_update (st : Store) (i : Int) (u : EmployeeUpdateData)
    (hu : u.has_updates = false) :
    ((EmployeeDAL.get_employee_by_id st i).isSome →
      (EmployeeController.update_employee none st i u).1.success = false ∧
      (EmployeeController.update_employee none st i u).1.message
        = some "No fields provided for update" ∧
      (EmployeeController.update_employee none st i u).2 = st) ∧
    (EmployeeDAL.get_employee_by_id st i = none →
      (EmployeeController.update_employee none st i u).1.success = false ∧
      (EmployeeController.update_employee none st i u).1.message
        = some ("Employee with ID " ++ toString i ++ " not found")) := by
  constructor
  · intro hs
    obtain ⟨r, hr⟩ := Option.isSome_iff_exists.mp hs
    simp [EmployeeController.update_employee, hr, hu]
  · intro hn
    simp [EmployeeController.update_employee, hn]

/-- Witness for C1: concrete instantiations of both branches. -/
theorem c1_no_fields_update_witness :
    ((EmployeeDAL.get_employee_by_id [⟨1, "Ann", "Bee", some "IT", "555"⟩] 1).isSome →
      (EmployeeController.update_employee none [⟨1, "Ann", "Bee", some "IT", "555"⟩] 1
          (EmployeeUpdateData.make none none none none)).1.success = false ∧
      (EmployeeController.update_employee none [⟨1, "Ann", "Bee", some "IT", "555"⟩] 1
          (EmployeeUpdateData.make none none none none)).1.message
        = some "No fields provided for update" ∧
      (EmployeeController.update_employee none [⟨1, "Ann", "Bee", some "IT", "555"⟩] 1
          (EmployeeUpdateData.make none none none none)).2
        = [⟨1, "Ann", "Bee", some "IT", "555"⟩]) ∧
    (EmployeeDAL.get_employee_by_id [⟨1, "Ann", "Bee", some "IT", "555"⟩] 1 = none →
      (EmployeeController.update_employee none [⟨1, "Ann", "Bee", some "IT", "555"⟩] 1
          (EmployeeUpdateData.make none none none none)).1.success = false ∧
      (EmployeeController.update_employee none [⟨1, "Ann", "Bee", some "IT", "555"⟩] 1
          (EmployeeUpdateData.make none none none none)).1.message
        = some ("Employee with ID " ++ toString (1 : Int) ++ " not found")) :=
  c1_no_fields_update [⟨1, "Ann", "Bee", some "IT", "555"⟩] 1
    (EmployeeUpdateData.make none none none none) (by decide)

/-- C6 counterexample: whitespace-only caller input is normalized to a
present empty-string field, not to "absent", and Update applies it as an
empty-string overwrite of the stored field. -/
theorem c6_counterexample :
    (EmployeeUpdateData.make (some " ") none none none).fname = some "" ∧
    (EmployeeController.update_employee none [⟨1, "Ann", "Bee", some "IT", "555"⟩] 1
        (EmployeeUpdateData.make (some " ") none none none)).2
      = [⟨1, "", "Bee", some "IT", "555"⟩] := by
  refine ⟨by decide, by decide⟩

/-- C6 (amended): each field of the constructed update-request is the
per-field normalization of the caller input: `None` and empty-string input
become "absent", and any other string (including whitespace-only input,
which yields a present empty string) is stripped and kept. -/
theorem c6_update_normalization (a b c d : Option String) :
    (EmployeeUpdateData.make a b c d).fname = pyOptStrip a ∧
    (EmployeeUpdateData.make a b c d).lname = pyOptStrip b ∧
    (EmployeeUpdateData.make a b c d).department = pyOptStrip c ∧
    (EmployeeUpdateData.make a b c d).ph_number = pyOptStrip d ∧
    (∀ x : Option String,
      (pyOptStrip x = none ↔ x = none ∨ x = some "") ∧
      (∀ s, x = some s → s ≠ "" → pyOptStrip x = some (pyStrip s))) := by
  refine ⟨rfl, rfl, rfl, rfl, ?_⟩
  intro x
  constructor
  · cases x with
    | none => simp [pyOptStrip]
    | some s => by_cases hs : s = "" <;> simp [pyOptStrip, hs]
  · rintro s rfl hs
    simp [pyOptStrip, hs]

/-- Witness for C6: concrete instantiation. -/
theorem c6_update_normalization_witness :
    (EmployeeUpdateData.make (some " a ") (some "") none (some "5")).fname
      = pyOptStrip (some " a ") ∧
    (EmployeeUpdateData.make (some " a ") (some "") none (some "5")).lname
      = pyOptStrip (some "") ∧
    (EmployeeUpdateData.make (some " a ") (some "") none (some "5")).department
      = pyOptStrip none ∧
    (EmployeeUpdateData.make (some " a ") (some "") none (some "5")).ph_number
      = pyOptStrip (some "5") ∧
    (∀ x : Option String,
      (pyOptStrip x = none ↔ x = none ∨ x = some "") ∧
      (∀ s, x = some s → s ≠ "" → pyOptStrip x = some (pyStrip s))) :=
  c6_update_normalization (some " a ") (some "") none (some "5")

/-- C9 counterexample: a stored blank (empty-string) department is kept by
`get_departments`, contradicting "nulls/blank excluded". -/
theorem c9_counterexample :
    EmployeeDAL.get_departments [⟨1, "Ann", "Bee", some "", "555"⟩] = [""] := by
  decide

/-- C9 (amended): `get_departments` returns the distinct department values
sorted ascending, with null departments excluded; blank (empty-string)
departments are ordinary values and are included. -/
theorem c9_distinct_departments (st : Store) :
    List.Sorted (fun a b : String => a ≤ b) (EmployeeDAL.get_departments st) ∧
    (EmployeeDAL.get_departments st).Nodup ∧
    (∀ d : String, d ∈ EmployeeDAL.get_departments st ↔ ∃ r ∈ st, r.department = some d) := by
  refine ⟨List.sorted_insertionSort _ _, ?_, ?_⟩
  · show (List.insertionSort (fun a b : String => a ≤ b)
      (st.filterMap DBRow.department).dedup).Nodup
    exact (List.perm_insertionSort _ _).symm.nodup (List.nodup_dedup _)
  · intro d
    rw [EmployeeDAL.get_departments, List.mem_insertionSort, List.mem_dedup,
      List.mem_filterMap]

/-- Witness for C9: concrete instantiation. -/
theorem c9_distinct_departments_witness :
    List.Sorted (fun a b : String => a ≤ b)
      (EmployeeDAL.get_departments [⟨1, "Ann", "Bee", some "IT", "555"⟩]) ∧
    (EmployeeDAL.get_departments [⟨1, "Ann", "Bee", some "IT", "555"⟩]).Nodup ∧
    (∀ d : String,
      d ∈ EmployeeDAL.get_departments [⟨1, "Ann", "Bee", some "IT", "555"⟩] ↔
      ∃ r ∈ [(⟨1, "Ann", "Bee", some "IT", "555"⟩ : DBRow)], r.department = some d) :=
  c9_distinct_departments [⟨1, "Ann", "Bee", some "IT", "555"⟩]

/-- Helper shared by the Create claims: on valid input, `create_employee`
either reports a phone conflict (when some stored row holds exactly the
input phone string) or inserts the raw inputs and returns the new id. -/
theorem create_valid_cases (st : Store) (f l d p : String)
    (hv : (Employee.make none (some f) (some l) (some d) (some p)).is_valid = true) :
    ((∃ r ∈ st, r.phNumber = p) →
      EmployeeController.create_employee none st f l d p
        = ({ success := false
             message := some ("Employee with phone number " ++ p ++ " already exists") }, st)) ∧
    ((¬ ∃ r ∈ st, r.phNumber = p) →
      EmployeeController.create_employee none st f l d p
        = ({ success := true
             message := some ("Employee created successfully with ID: "
               ++ toString (EmployeeDAL.nextId st))
             employee_id := some (EmployeeDAL.nextId st) },
           st ++ [⟨EmployeeDAL.nextId st, f, l, some d, p⟩])) := by
  constructor
  · rintro ⟨r, hr, hpr⟩
    have hsome : ((EmployeeDAL.get_all_employees st).find?
        (fun emp => emp.phNumber == p)).isSome = true := by
      rw [List.find?_isSome]
      exact ⟨r, (mem_get_all_iff st r).mpr hr, by simp [hpr]⟩
    obtain ⟨r2, hr2⟩ := Option.isSome_iff_exists.mp hsome
    simp [EmployeeController.create_employee, hv, hr2]
  · intro hno
    have hfind : (EmployeeDAL.get_all_employees st).find?
        (fun emp => emp.phNumber == p) = none := by
      rw [List.find?_eq_none]
      intro r hr hbeq
      exact hno ⟨r, (mem_get_all_iff st r).mp hr, by simpa using hbeq⟩
    simp [EmployeeController.create_employee, hv, hfind, EmployeeDAL.create_employee]

/-- C2 counterexample: with phone "555" already stored, creating with the
whitespace-variant phone " 555" is NOT rejected as a conflict, and the
persisted record keeps the untrimmed input strings. -/
theorem c2_counterexample :
    (EmployeeController.create_employee none [⟨1, "Ann", "Bee", some "IT", "555"⟩]
        " Joe " "Doe" "IT" " 555").1.success = true ∧
    (EmployeeController.create_employee none [⟨1, "Ann", "Bee", some "IT", "555"⟩]
        " Joe " "Doe" "IT" " 555").2
      = [⟨1, "Ann", "Bee", some "IT", "555"⟩, ⟨2, " Joe ", "Doe", some "IT", " 555"⟩] ∧
    pyStrip " 555" = "555" ∧ pyStrip " Joe " ≠ " Joe " := by
  refine ⟨by decide, by decide, by decide, by decide⟩

/-- C2 (amended): Create validates against the trimmed field values, but
the duplicate-phone check compares the raw input phone for exact equality
with stored phones (whitespace variants are not conflicts), and a
successful Create persists the four raw, untrimmed input strings. -/
theorem c2_create_raw_strings (st : Store) (f l d p : String)
    (hv : (Employee.make none (some f) (some l) (some d) (some p)).is_valid = true) :
    ((¬ ∃ r ∈ st, r.phNumber = p) →
      (EmployeeController.create_employee none st f l d p).1.success = true ∧
      (EmployeeController.create_employee none st f l d p).2
        = st ++ [⟨EmployeeDAL.nextId st, f, l, some d, p⟩]) ∧
    ((∃ r ∈ st, r.phNumber = p) →
      (EmployeeController.create_employee none st f l d p).1.success = false ∧
      (EmployeeController.create_employee none st f l d p).2 = st) := by
  obtain ⟨hconf, hins⟩ := create_valid_cases st f l d p hv
  constructor
  · intro hno
    rw [hins hno]
    exact ⟨rfl, rfl⟩
  · intro hex
    rw [hconf hex]
    exact ⟨rfl, rfl⟩

/-- Witness for C2: concrete instantiation. -/
theorem c2_create_raw_strings_witness :
    ((¬ ∃ r ∈ ([] : Store), r.phNumber = " 5 ") →
      (EmployeeController.create_employee none [] " A " "B" "C" " 5 ").1.success = true ∧
      (EmployeeController.create_employee none [] " A " "B" "C" " 5 ").2
        = [] ++ [⟨EmployeeDAL.nextId [], " A ", "B", some "C", " 5 "⟩]) ∧
    ((∃ r ∈ ([] : Store), r.phNumber = " 5 ") →
      (EmployeeController.create_employee none [] " A " "B" "C" " 5 ").1.success = false ∧
      (EmployeeController.create_employee none [] " A " "B" "C" " 5 ").2 = []) :=
  c2_create_raw_strings [] " A " "B" "C" " 5 " (by decide)

/-- Helper: the validation-error list is a sublist of the canonical
fixed-order four-message list, and each message occurs exactly when its
field is missing. -/
theorem validation_errors_ordered (e : Employee) :
    List.Sublist e.get_validation_errors
      ["First name is required", "Last name is required",
       "Department is required", "Phone number is required"] ∧
    (("First name is required" ∈ e.get_validation_errors) ↔ e.fname = "") ∧
    (("Last name is required" ∈ e.get_validation_errors) ↔ e.lname = "") ∧
    (("Department is required" ∈ e.get_validation_errors) ↔ e.department = "") ∧
    (("Phone number is required" ∈ e.get_validation_errors) ↔ e.ph_number = "") := by
  unfold Employee.get_validation_errors
  by_cases h1 : e.fname = "" <;> by_cases h2 : e.lname = "" <;>
    by_cases h3 : e.department = "" <;> by_cases h4 : e.ph_number = "" <;>
    simp [h1, h2, h3, h4]

/-- C4: Create validates first (failure carries the ordered error list with
one message per missing field, in the order first name, last name,
department, phone); on valid input a stored phone equal to the input phone
gives a conflict failure naming that phone; otherwise the record is
inserted and the success envelope carries the newly assigned id. -/
theorem c4_create_order (st : Store) (f l d p : String) :
    ((Employee.make none (some f) (some l) (some d) (some p)).is_valid = false →
      (EmployeeController.create_employee none st f l d p).1.success = false ∧
      (EmployeeController.create_employee none st f l d p).1.message
        = some "Validation failed" ∧
      (EmployeeController.create_employee none st f l d p).1.errors
        = some (Employee.make none (some f) (some l) (some d) (some p)).get_validation_errors ∧
      (EmployeeController.create_employee none st f l d p).2 = st ∧
      List.Sublist
        (Employee.make none (some f) (some l) (some d) (some p)).get_validation_errors
        ["First name is required", "Last name is required",
         "Department is required", "Phone number is required"] ∧
      (("First name is required"
          ∈ (Employee.make none (some f) (some l) (some d) (some p)).get_validation_errors)
        ↔ (Employee.make none (some f) (some l) (some d) (some p)).fname = "") ∧
      (("Last name is required"
          ∈ (Employee.make none (some f) (some l) (some d) (some p)).get_validation_errors)
        ↔ (Employee.make none (some f) (some l) (some d) (some p)).lname = "") ∧
      (("Department is required"
          ∈ (Employee.make none (some f) (some l) (some d) (some p)).get_validation_errors)
        ↔ (Employee.make none (some f) (some l) (some d) (some p)).department = "") ∧
      (("Phone number is required"
          ∈ (Employee.make none (some f) (some l) (some d) (some p)).get_validation_errors)
        ↔ (Employee.make none (some f) (some l) (some d) (some p)).ph_number = "")) ∧
    ((Employee.make none (some f) (some l) (some d) (some p)).is_valid = true →
      ((∃ r ∈ st, r.phNumber = p) →
        (EmployeeController.create_employee none st f l d p).1.success = false ∧
        (EmployeeController.create_employee none st f l d p).1.message
          = some ("Employee with phone number " ++ p ++ " already exists") ∧
        (EmployeeController.create_employee none st f l d p).2 = st) ∧
      ((¬ ∃ r ∈ st, r.phNumber = p) →
        (EmployeeController.create_employee none st f l d p).1.success = true ∧
        (EmployeeController.create_employee none st f l d p).1.employee_id
          = some (EmployeeDAL.nextId st) ∧
        (EmployeeController.create_employee none st f l d p).2
          = st ++ [⟨EmployeeDAL.nextId st, f, l, some d, p⟩])) := by
  constructor
  · intro hv
    obtain ⟨hsub, hm1, hm2, hm3, hm4⟩ :=
      validation_errors_ordered (Employee.make none (some f) (some l) (some d) (some p))
    refine ⟨?_, ?_, ?_, ?_, hsub, hm1, hm2, hm3, hm4⟩ <;>
      simp [EmployeeController.create_employee, hv]
  · intro hv
    obtain ⟨hconf, hins⟩ := create_valid_cases st f l d p hv
    constructor
    · intro hex
      rw [hconf hex]
      exact ⟨rfl, rfl, rfl⟩
    · intro hno
      rw [hins hno]
      exact ⟨rfl, rfl, rfl⟩

/-- C5: for an existing record and an update whose phone field is present,
a phone held by a different stored record is rejected as a conflict naming
that phone with the store unchanged, while (under the documented invariant
that stored phones are pairwise distinct) re-submitting the record's own
phone succeeds. -/
theorem c5_update_phone (st : Store) (i : Int) (u : EmployeeUpdateData)
    (r : DBRow) (hr : EmployeeDAL.get_employee_by_id st i = some r)
    (p : String) (hp : u.ph_number = some p) :
    ((∃ row ∈ st, row.phNumber = p ∧ row.id ≠ i) →
      (EmployeeController.update_employee none st i u).1.success = false ∧
      (EmployeeController.update_employee none st i u).1.message
        = some ("Phone number " ++ p ++ " is already in use by another employee") ∧
      (EmployeeController.update_employee none st i u).2 = st) ∧
    ((st.map DBRow.phNumber).Nodup → p = r.phNumber →
      (EmployeeController.update_employee none st i u).1.success = true ∧
      (EmployeeController.update_employee none st i u).1.message
        = some ("Employee " ++ toString i ++ " updated successfully")) := by
  have hu : u.has_updates = true := by
    simp [EmployeeUpdateData.has_updates, hp]
  obtain ⟨hrmem, hrid⟩ := get_employee_by_id_spec st i r hr
  constructor
  · rintro ⟨row, hrow, hpr, hri⟩
    have hany : ((EmployeeDAL.get_all_employees st).any
        (fun emp => emp.phNumber == p && !(emp.id == i))) = true := by
      rw [List.any_eq_true]
      exact ⟨row, (mem_get_all_iff st row).mpr hrow, by simp [hpr, hri]⟩
    simp [EmployeeController.update_employee, hr, hu, hp, hany]
  · intro hnd hpe
    have hany : ((EmployeeDAL.get_all_employees st).any
        (fun emp => emp.phNumber == p && !(emp.id == i))) = false := by
      rw [Bool.eq_false_iff]
      intro hc
      rw [List.any_eq_true] at hc
      obtain ⟨row, hrowmem, hcond⟩ := hc
      have hrow : row ∈ st := (mem_get_all_iff st row).mp hrowmem
      simp only [Bool.and_eq_true, beq_iff_eq, Bool.not_eq_eq_eq_not, Bool.not_true,
        beq_eq_false_iff_ne, ne_eq] at hcond
      obtain ⟨hph, hid⟩ := hcond
      have heqr : row = r := List.inj_on_of_nodup_map hnd hrow hrmem (by rw [hph, ← hpe])
      exact hid (by rw [heqr, hrid])
    have hok : st.any (fun r2 => r2.id == i) = true := by
      rw [List.any_eq_true]
      exact ⟨r, hrmem, by simp [hrid]⟩
    simp [EmployeeController.update_employee, hr, hu, hp, hany,
      EmployeeController.perform_update, EmployeeDAL.update_employee, hok]

/-- Witness for C4: concrete instantiation (missing first name). -/
theorem c4_create_order_witness :
    ((Employee.make none (some "") (some "B") (some "C") (some "5")).is_valid = false →
      (EmployeeController.create_employee none [] "" "B" "C" "5").1.success = false ∧
      (EmployeeController.create_employee none [] "" "B" "C" "5").1.message
        = some "Validation failed" ∧
      (EmployeeController.create_employee none [] "" "B" "C" "5").1.errors
        = some (Employee.make none (some "") (some "B") (some "C") (some "5")).get_validation_errors ∧
      (EmployeeController.create_employee none [] "" "B" "C" "5").2 = [] ∧
      List.Sublist
        (Employee.make none (some "") (some "B") (some "C") (some "5")).get_validation_errors
        ["First name is required", "Last name is required",
         "Department is required", "Phone number is required"] ∧
      (("First name is required"
          ∈ (Employee.make none (some "") (some "B") (some "C") (some "5")).get_validation_errors)
        ↔ (Employee.make none (some "") (some "B") (some "C") (some "5")).fname = "") ∧
      (("Last name is required"
          ∈ (Employee.make none (some "") (some "B") (some "C") (some "5")).get_validation_errors)
        ↔ (Employee.make none (some "") (some "B") (some "C") (some "5")).lname = "") ∧
      (("Department is required"
          ∈ (Employee.make none (some "") (some "B") (some "C") (some "5")).get_validation_errors)
        ↔ (Employee.make none (some "") (some "B") (some "C") (some "5")).department = "") ∧
      (("Phone number is required"
          ∈ (Employee.make none (some "") (some "B") (some "C") (some "5")).get_validation_errors)
        ↔ (Employee.make none (some "") (some "B") (some "C") (some "5")).ph_number = "")) ∧
    ((Employee.make none (some "") (some "B") (some "C") (some "5")).is_valid = true →
      ((∃ r ∈ ([] : Store), r.phNumber = "5") →
        (EmployeeController.create_employee none [] "" "B" "C" "5").1.success = false ∧
        (EmployeeController.create_employee none [] "" "B" "C" "5").1.message
          = some ("Employee with phone number " ++ "5" ++ " already exists") ∧
        (EmployeeController.create_employee none [] "" "B" "C" "5").2 = []) ∧
      ((¬ ∃ r ∈ ([] : Store), r.phNumber = "5") →
        (EmployeeController.create_employee none [] "" "B" "C" "5").1.success = true ∧
        (EmployeeController.create_employee none [] "" "B" "C" "5").1.employee_id
          = some (EmployeeDAL.nextId []) ∧
        (EmployeeController.create_employee none [] "" "B" "C" "5").2
          = [] ++ [⟨EmployeeDAL.nextId [], "", "B", some "C", "5"⟩])) :=
  c4_create_order [] "" "B" "C" "5"

/-- Witness for C5: concrete instantiation (record 1 re-submits its own
phone number). -/
theorem c5_update_phone_witness :
    ((∃ row ∈ [(⟨1, "Ann", "Bee", some "IT", "555"⟩ : DBRow),
               ⟨2, "Cal", "Dee", some "HR", "666"⟩], row.phNumber = "555" ∧ row.id ≠ 1) →
      (EmployeeController.update_employee none
          [⟨1, "Ann", "Bee", some "IT", "555"⟩, ⟨2, "Cal", "Dee", some "HR", "666"⟩] 1
          (EmployeeUpdateData.make none none none (some "555"))).1.success = false ∧
      (EmployeeController.update_employee none
          [⟨1, "Ann", "Bee", some "IT", "555"⟩, ⟨2, "Cal", "Dee", some "HR", "666"⟩] 1
          (EmployeeUpdateData.make none none none (some "555"))).1.message
        = some ("Phone number " ++ "555" ++ " is already in use by another employee") ∧
      (EmployeeController.update_employee none
          [⟨1, "Ann", "Bee", some "IT", "555"⟩, ⟨2, "Cal", "Dee", some "HR", "666"⟩] 1
          (EmployeeUpdateData.make none none none (some "555"))).2
        = [⟨1, "Ann", "Bee", some "IT", "555"⟩, ⟨2, "Cal", "Dee", some "HR", "666"⟩]) ∧
    ((([(⟨1, "Ann", "Bee", some "IT", "555"⟩ : DBRow),
        ⟨2, "Cal", "Dee", some "HR", "666"⟩].map DBRow.phNumber).Nodup) →
      "555" = (⟨1, "Ann", "Bee", some "IT", "555"⟩ : DBRow).phNumber →
      (EmployeeController.update_employee none
          [⟨1, "Ann", "Bee", some "IT", "555"⟩, ⟨2, "Cal", "Dee", some "HR", "666"⟩] 1
          (EmployeeUpdateData.make none none none (some "555"))).1.success = true ∧
      (EmployeeController.update_employee none
          [⟨1, "Ann", "Bee", some "IT", "555"⟩, ⟨2, "Cal", "Dee", some "HR", "666"⟩] 1
          (EmployeeUpdateData.make none none none (some "555"))).1.message
        = some ("Employee " ++ toString (1 : Int) ++ " updated successfully")) :=
  c5_update_phone
    [⟨1, "Ann", "Bee", some "IT", "555"⟩, ⟨2, "Cal", "Dee", some "HR", "666"⟩] 1
    (EmployeeUpdateData.make none none none (some "555"))
    ⟨1, "Ann", "Bee", some "IT", "555"⟩ (by decide) "555" (by decide)

/-- C7: Search with empty criteria returns exactly the list GetAll returns,
in the same order, namely the stored rows ascending by id. -/
theorem c7_search_empty_eq_get_all (st : Store) (c : EmployeeSearchCriteria)
    (hc : c.is_empty = true) :
    (EmployeeController.search_employees none st c).success = true ∧
    (EmployeeController.get_all_employees none st).success = true ∧
    (EmployeeController.search_employees none st c).employees
      = (EmployeeController.get_all_employees none st).employees ∧
    (EmployeeController.search_employees none st c).employees
      = some ((EmployeeDAL.get_all_employees st).map Employee.from_row) ∧
    List.Sorted rowLe (EmployeeDAL.get_all_employees st) := by
  refine ⟨?_, rfl, ?_, ?_, List.sorted_insertionSort _ _⟩ <;>
    simp [EmployeeController.search_employees, hc, EmployeeController.get_all_employees]

/-- Witness for C7: concrete instantiation. -/
theorem c7_search_empty_eq_get_all_witness :
    (EmployeeController.search_employees none [⟨1, "Ann", "Bee", some "IT", "555"⟩]
        (EmployeeSearchCriteria.make "" "")).success = true ∧
    (EmployeeController.get_all_employees none [⟨1, "Ann", "Bee", some "IT", "555"⟩]).success
      = true ∧
    (EmployeeController.search_employees none [⟨1, "Ann", "Bee", some "IT", "555"⟩]
        (EmployeeSearchCriteria.make "" "")).employees
      = (EmployeeController.get_all_employees none
          [⟨1, "Ann", "Bee", some "IT", "555"⟩]).employees ∧
    (EmployeeController.search_employees none [⟨1, "Ann", "Bee", some "IT", "555"⟩]
        (EmployeeSearchCriteria.make "" "")).employees
      = some ((EmployeeDAL.get_all_employees [⟨1, "Ann", "Bee", some "IT", "555"⟩]).map
          Employee.from_row) ∧
    List.Sorted rowLe (EmployeeDAL.get_all_employees [⟨1, "Ann", "Bee", some "IT", "555"⟩]) :=
  c7_search_empty_eq_get_all [⟨1, "Ann", "Bee", some "IT", "555"⟩]
    (EmployeeSearchCriteria.make "" "") (by decide)

/-- C8: with both a search term and a department filter set, Search
succeeds and returns exactly the records whose department equals the
filter and whose first or last name contains the term case-insensitively,
with the message reporting the match count. -/
theorem c8_search_term_and_department (st : Store) (c : EmployeeSearchCriteria)
    (ht : c.has_search_term = true) (hd : c.has_department_filter = true) :
    (EmployeeController.search_employees none st c).success = true ∧
    (EmployeeController.search_employees none st c).employees
      = some (((EmployeeDAL.get_all_employees st).filter (fun r =>
          (pyStrIn (pyLower c.search_term) (pyLower r.fname) ||
           pyStrIn (pyLower c.search_term) (pyLower r.lname)) &&
          r.department == some c.department)).map Employee.from_row) ∧
    (EmployeeController.search_employees none st c).message
      = some ("Found "
          ++ toString (((EmployeeDAL.get_all_employees st).filter (fun r =>
               (pyStrIn (pyLower c.search_term) (pyLower r.fname) ||
                pyStrIn (pyLower c.search_term) (pyLower r.lname)) &&
               r.department == some c.department)).map Employee.from_row).length
          ++ " matching employees") ∧
    (∀ r : DBRow,
      (((pyStrIn (pyLower c.search_term) (pyLower r.fname) ||
         pyStrIn (pyLower c.search_term) (pyLower r.lname)) &&
        r.department == some c.department) = true) ↔
      ((pyStrIn (pyLower c.search_term) (pyLower r.fname) = true ∨
        pyStrIn (pyLower c.search_term) (pyLower r.lname) = true) ∧
       r.department = some c.department)) := by
  have hne : c.is_empty = false := by
    simp [EmployeeSearchCriteria.is_empty, ht]
  refine ⟨?_, ?_, ?_, ?_⟩
  · simp [EmployeeController.search_employees, hne]
  · simp [EmployeeController.search_employees, hne, ht, hd]
  · simp [EmployeeController.search_employees, hne, ht, hd]
  · intro r
    simp

/-- Witness for C8: concrete instantiation. -/
theorem c8_search_term_and_department_witness :
    (EmployeeController.search_employees none [⟨1, "Ann", "Bee", some "IT", "555"⟩]
        (EmployeeSearchCriteria.make "an" "IT")).success = true ∧
    (EmployeeController.search_employees none [⟨1, "Ann", "Bee", some "IT", "555"⟩]
        (EmployeeSearchCriteria.make "an" "IT")).employees
      = some (((EmployeeDAL.get_all_employees [⟨1, "Ann", "Bee", some "IT", "555"⟩]).filter
          (fun r =>
            (pyStrIn (pyLower (EmployeeSearchCriteria.make "an" "IT").search_term)
               (pyLower r.fname) ||
             pyStrIn (pyLower (EmployeeSearchCriteria.make "an" "IT").search_term)
               (pyLower r.lname)) &&
            r.department == some (EmployeeSearchCriteria.make "an" "IT").department)).map
          Employee.from_row) ∧
    (EmployeeController.search_employees none [⟨1, "Ann", "Bee", some "IT", "555"⟩]
        (EmployeeSearchCriteria.make "an" "IT")).message
      = some ("Found "
          ++ toString (((EmployeeDAL.get_all_employees
               [⟨1, "Ann", "Bee", some "IT", "555"⟩]).filter (fun r =>
                 (pyStrIn (pyLower (EmployeeSearchCriteria.make "an" "IT").search_term)
                    (pyLower r.fname) ||
                  pyStrIn (pyLower (EmployeeSearchCriteria.make "an" "IT").search_term)
                    (pyLower r.lname)) &&
                 r.department == some (EmployeeSearchCriteria.make "an" "IT").department)).map
               Employee.from_row).length
          ++ " matching employees") ∧
    (∀ r : DBRow,
      (((pyStrIn (pyLower (EmployeeSearchCriteria.make "an" "IT").search_term)
           (pyLower r.fname) ||
         pyStrIn (pyLower (EmployeeSearchCriteria.make "an" "IT").search_term)
           (pyLower r.lname)) &&
        r.department == some (EmployeeSearchCriteria.make "an" "IT").department) = true) ↔
      ((pyStrIn (pyLower (EmployeeSearchCriteria.make "an" "IT").search_term)
          (pyLower r.fname) = true ∨
        pyStrIn (pyLower (EmployeeSearchCriteria.make "an" "IT").search_term)
          (pyLower r.lname) = true) ∧
       r.department = some (EmployeeSearchCriteria.make "an" "IT").department)) :=
  c8_search_term_and_department [⟨1, "Ann", "Bee", some "IT", "555"⟩]
    (EmployeeSearchCriteria.make "an" "IT") (by decide) (by decide)

/-- C3 counterexample: the success envelope of `get_employee_statistics`
carries no `message` key at all, so not every Coordinator envelope
contains a string message. -/
theorem c3_counterexample :
    (EmployeeController.get_employee_statistics none []).success = true ∧
    (EmployeeController.get_employee_statistics none []).message = none := by
  exact ⟨rfl, rfl⟩

/-- Helper: every `create_employee` envelope is well formed. -/
theorem create_envelope_wf (fault : Option String) (st : Store) (f l d p : String) :
    (EmployeeController.create_employee fault st f l d p).1.wellFormed := by
  unfold EmployeeController.create_employee
  simp only [Envelope.wellFormed, Envelope.payloadAbsent]
  split
  · simp
  · split
    · simp
    · split <;> simp

/-- Helper: every `get_employee` envelope is well formed. -/
theorem get_envelope_wf (fault : Option String) (st : Store) (i : Int) :
    (EmployeeController.get_employee fault st i).wellFormed := by
  unfold EmployeeController.get_employee
  simp only [Envelope.wellFormed, Envelope.payloadAbsent]
  split
  · simp
  · split <;> simp

/-- Helper: every `get_all_employees` envelope is well formed. -/
theorem get_all_envelope_wf (fault : Option String) (st : Store) :
    (EmployeeController.get_all_employees fault st).wellFormed := by
  unfold EmployeeController.get_all_employees
  simp only [Envelope.wellFormed, Envelope.payloadAbsent]
  split <;> simp

/-- Helper: every `search_employees` envelope is well formed. -/
theorem search_envelope_wf (fault : Option String) (st : Store)
    (c : EmployeeSearchCriteria) :
    (EmployeeController.search_employees fault st c).wellFormed := by
  unfold EmployeeController.search_employees
  simp only [Envelope.wellFormed, Envelope.payloadAbsent]
  split
  · simp
  · split <;> simp

/-- Helper: every `update_employee` envelope is well formed. -/
theorem update_envelope_wf (fault : Option String) (st : Store) (i : Int)
    (u : EmployeeUpdateData) :
    (EmployeeController.update_employee fault st i u).1.wellFormed := by
  unfold EmployeeController.update_employee EmployeeController.perform_update
  simp only [Envelope.wellFormed, Envelope.payloadAbsent]
  split
  · simp
  · split
    · simp
    · split
      · simp
      · split
        · split
          · simp
          · split <;> simp
        · split <;> simp

/-- Helper: every `delete_employee` envelope is well formed. -/
theorem delete_envelope_wf (fault : Option String) (st : Store) (i : Int) :
    (EmployeeController.delete_employee fault st i).1.wellFormed := by
  unfold EmployeeController.delete_employee
  simp only [Envelope.wellFormed, Envelope.payloadAbsent]
  split
  · simp
  · split
    · simp
    · split <;> simp

/-- Helper: every `get_departments` envelope is well formed. -/
theorem departments_envelope_wf (fault : Option String) (st : Store) :
    (EmployeeController.get_departments fault st).wellFormed := by
  unfold EmployeeController.get_departments
  simp only [Envelope.wellFormed, Envelope.payloadAbsent]
  split <;> simp

/-- Helper: the statistics envelope has the statistics shape. -/
theorem statistics_envelope_shape (fault : Option String) (st : Store) :
    (EmployeeController.get_employee_statistics fault st).statisticsShape := by
  unfold EmployeeController.get_employee_statistics
  simp only [Envelope.statisticsShape, Envelope.payloadAbsent]
  split <;> simp

/-- C3 (amended): every Coordinator operation returns an envelope with a
boolean `success`; every envelope carries a string `message` except the
success envelope of Statistics, which omits `message` and carries only the
statistics payload; the operation-specific payload is absent on failure;
and a storage-layer exception is converted into a success=false envelope
with a "Failed to <operation>: <cause>" message instead of propagating:
for every operation that reaches the storage layer its own envelope is
exactly that failure envelope (Create reaches storage only after its
validation passes, and under a fault with invalid input still fails), and
for Search with empty criteria the nested GetAll call performs that
conversion. -/
theorem c3_envelope_contract (fault : Option String) (st : Store)
    (f l d p : String) (i : Int) (u : EmployeeUpdateData)
    (c : EmployeeSearchCriteria) :
    (EmployeeController.create_employee fault st f l d p).1.wellFormed ∧
    (EmployeeController.get_employee fault st i).wellFormed ∧
    (EmployeeController.get_all_employees fault st).wellFormed ∧
    (EmployeeController.search_employees fault st c).wellFormed ∧
    (EmployeeController.update_employee fault st i u).1.wellFormed ∧
    (EmployeeController.delete_employee fault st i).1.wellFormed ∧
    (EmployeeController.get_departments fault st).wellFormed ∧
    (EmployeeController.get_employee_statistics fault st).statisticsShape ∧
    (∀ e, fault = some e →
      (EmployeeController.create_employee fault st f l d p).1.success = false ∧
      ((Employee.make none (some f) (some l) (some d) (some p)).is_valid = true →
        (EmployeeController.create_employee fault st f l d p).1
          = { success := false, message := some ("Failed to create employee: " ++ e) }) ∧
      (c.is_empty = false →
        EmployeeController.search_employees fault st c
          = { success := false, message := some ("Failed to search employees: " ++ e) }) ∧
      EmployeeController.get_employee_statistics fault st
        = { success := false, message := some ("Failed to get statistics: " ++ e) } ∧
      EmployeeController.get_employee fault st i
        = { success := false, message := some ("Failed to retrieve employee: " ++ e) } ∧
      EmployeeController.get_all_employees fault st
        = { success := false, message := some ("Failed to retrieve employees: " ++ e) } ∧
      (EmployeeController.update_employee fault st i u).1
        = { success := false, message := some ("Failed to update employee: " ++ e) } ∧
      (EmployeeController.delete_employee fault st i).1
        = { success := false, message := some ("Failed to delete employee: " ++ e) } ∧
      EmployeeController.get_departments fault st
        = { success := false, message := some ("Failed to get departments: " ++ e) }) := by
  refine ⟨create_envelope_wf fault st f l d p, get_envelope_wf fault st i,
    get_all_envelope_wf fault st, search_envelope_wf fault st c,
    update_envelope_wf fault st i u, delete_envelope_wf fault st i,
    departments_envelope_wf fault st, statistics_envelope_shape fault st, ?_⟩
  rintro e rfl
  refine ⟨?_, ?_, ?_, rfl, rfl, rfl, rfl, rfl, rfl⟩
  · cases hv : (Employee.make none (some f) (some l) (some d) (some p)).is_valid <;>
      simp [EmployeeController.create_employee, hv]
  · intro hv
    simp [EmployeeController.create_employee, hv]
  · intro hne
    simp [EmployeeController.search_employees, hne]

/-- Witness for C3: concrete instantiation. -/
theorem c3_envelope_contract_witness :
    (EmployeeController.create_employee none [] "A" "B" "C" "5").1.wellFormed ∧
    (EmployeeController.get_employee none [] 1).wellFormed ∧
    (EmployeeController.get_all_employees none []).wellFormed ∧
    (EmployeeController.search_employees none []
        (EmployeeSearchCriteria.make "" "")).wellFormed ∧
    (EmployeeController.update_employee none [] 1
        (EmployeeUpdateData.make none none none none)).1.wellFormed ∧
    (EmployeeController.delete_employee none [] 1).1.wellFormed ∧
    (EmployeeController.get_departments none []).wellFormed ∧
    (EmployeeController.get_employee_statistics none []).statisticsShape ∧
    (∀ e, (none : Option String) = some e →
      (EmployeeController.create_employee none [] "A" "B" "C" "5").1.success = false ∧
      ((Employee.make none (some "A") (some "B") (some "C") (some "5")).is_valid = true →
        (EmployeeController.create_employee none [] "A" "B" "C" "5").1
          = { success := false, message := some ("Failed to create employee: " ++ e) }) ∧
      ((EmployeeSearchCriteria.make "" "").is_empty = false →
        EmployeeController.search_employees none [] (EmployeeSearchCriteria.make "" "")
          = { success := false, message := some ("Failed to search employees: " ++ e) }) ∧
      EmployeeController.get_employee_statistics none []
        = { success := false, message := some ("Failed to get statistics: " ++ e) } ∧
      EmployeeController.get_employee none [] 1
        = { success := false, message := some ("Failed to retrieve employee: " ++ e) } ∧
      EmployeeController.get_all_employees none []
        = { success := false, message := some ("Failed to retrieve employees: " ++ e) } ∧
      (EmployeeController.update_employee none [] 1
          (EmployeeUpdateData.make none none none none)).1
        = { success := false, message := some ("Failed to update employee: " ++ e) } ∧
      (EmployeeController.delete_employee none [] 1).1
        = { success := false, message := some ("Failed to delete employee: " ++ e) } ∧
      EmployeeController.get_departments none []
        = { success := false, message := some ("Failed to get departments: " ++ e) }) :=
  c3_envelope_contract none [] "A" "B" "C" "5" 1
    (EmployeeUpdateData.make none none none none) (EmployeeSearchCriteria.make "" "")
